import Mathlib

/-!
Verification development for `benchmark_llm.py`, a benchmarking harness for a
local LLM inference server.  The Python source is shallowly embedded below:
pure helpers become Lean functions, the network and the JSON parser become
explicit parameters (an `Option HttpResponse` for the POST outcome and a
`String → Option Json` oracle for `json.loads`), and the CSV ledger becomes a
list of rows threaded through `save_result`.  Machine floats are modelled by
exact rationals `ℚ`; where Python formats a float to two decimal places the
model rounds the exact rational (`fmt2`).
-/

/-- JSON values, as produced by `json.loads`.  Numbers are modelled as exact
rationals; an object is the already-collapsed dict (`json.loads` keeps the
last duplicate key, so keys in the association list are assumed distinct). -/
inductive Json where
  | null : Json
  | bool : Bool → Json
  | num : ℚ → Json
  | str : String → Json
  | arr : List Json → Json
  | obj : List (String × Json) → Json

/-- Lookup of a key in a JSON object; `none` when the value is not an object
or the key is missing. -/
def Json.lookup (j : Json) (k : String) : Option Json :=
  match j with
  | Json.obj kvs => kvs.lookup k
  | _ => none

/-- Model of an HTTP response from `requests.post`: a status code and the
response body text. -/
structure HttpResponse where
  status_code : Nat
  text : String

/-- Characters removed by Python's `str.strip()` at both ends. -/
def isPySpace (c : Char) : Bool :=
  c = ' ' || c = '\t' || c = '\n' || c = '\r' || c = '\x0b' || c = '\x0c'

/-- Python `str.strip()`: drop whitespace from both ends. -/
def pyStrip (s : String) : String :=
  String.mk (((s.data.dropWhile isPySpace).reverse.dropWhile isPySpace).reverse)

/-- Python `str.split('\n')` on the character list: splits at every newline,
always returns at least one (possibly empty) segment. -/
def splitNl : List Char → List (List Char)
  | [] => [[]]
  | c :: rest =>
    if c = '\n' then [] :: splitNl rest
    else
      match splitNl rest with
      | [] => [[c]]
      | l :: ls => (c :: l) :: ls

/-- `response.text.strip().split('\n')[-1]` from `run_benchmark` (lines
131-132): the last newline-delimited line of the stripped response body. -/
def lastLine (s : String) : String :=
  String.mk ((splitNl (pyStrip s).data).getLastD [])

/-- The six raw Ollama statistics extracted from the final JSON record
(`run_benchmark` lines 153-160).  Durations are nanoseconds. -/
structure RawStats where
  total_duration : ℚ
  load_duration : ℚ
  prompt_eval_count : ℚ
  prompt_eval_duration : ℚ
  eval_count : ℚ
  eval_duration : ℚ

/-- `response_data.get(k, 0)` for a stats field: `some 0` when the key is
missing, the number when present, and `none` (modelling the `TypeError`
raised later and caught by the outer `except`) when the value is not a
number. -/
def numD (kvs : List (String × Json)) (k : String) : Option ℚ :=
  match kvs.lookup k with
  | none => some 0
  | some (Json.num q) => some q
  | some _ => none

/-- Extraction of the six raw statistics from the parsed final record
(`run_benchmark` lines 153-160).  `none` models the exceptions the Python
caught by the outer handler: the record not being a dict, or a stats field
holding a non-numeric value (which would raise in the `> 0` comparison or in
`format_duration`). -/
def extractStats (j : Json) : Option RawStats :=
  match j with
  | Json.obj kvs => do
    let td ← numD kvs "total_duration"
    let ld ← numD kvs "load_duration"
    let pc ← numD kvs "prompt_eval_count"
    let pd ← numD kvs "prompt_eval_duration"
    let ec ← numD kvs "eval_count"
    let ed ← numD kvs "eval_duration"
    some ⟨td, ld, pc, pd, ec, ed⟩
  | _ => none

/-- `response_data.get('message', {}).get('content', '')` (`run_benchmark`
line 150): missing `message` or missing `content` yield the empty string;
`none` models the exceptions caught by the outer handler (the record or the
`message` value not being a dict, or `content` not being text, which would
raise when the content is sliced for logging). -/
def extractContent (j : Json) : Option String :=
  match j with
  | Json.obj kvs =>
    match kvs.lookup "message" with
    | none => some ""
    | some (Json.obj mkvs) =>
      match mkvs.lookup "content" with
      | none => some ""
      | some (Json.str s) => some s
      | some _ => none
    | some _ => none
  | _ => none

/-- The `stats` dict returned by `run_benchmark` (lines 153-171): the six raw
fields followed by the two derived rates, each rate guarded by the positivity
check on its count and duration. -/
def statsDict (r : RawStats) : List (String × ℚ) :=
  [("total_duration", r.total_duration),
   ("load_duration", r.load_duration),
   ("prompt_eval_count", r.prompt_eval_count),
   ("prompt_eval_duration", r.prompt_eval_duration),
   ("eval_count", r.eval_count),
   ("eval_duration", r.eval_duration),
   ("prompt_eval_rate",
     if 0 < r.prompt_eval_count ∧ 0 < r.prompt_eval_duration then
       r.prompt_eval_count / (r.prompt_eval_duration / 1000000000)
     else 0),
   ("eval_rate",
     if 0 < r.eval_count ∧ 0 < r.eval_duration then
       r.eval_count / (r.eval_duration / 1000000000)
     else 0)]

/-- The triple returned by `run_benchmark`: message content, wall-clock
duration in seconds, and the stats dict. -/
structure RunResult where
  message_content : Option String
  duration : Option ℚ
  stats : List (String × ℚ)
deriving DecidableEq

/-- `(None, None, {})`: the triple `run_benchmark` returns on any failure. -/
def absentTriple : RunResult := ⟨none, none, []⟩

/-- `run_benchmark` (lines 109-191).  The POST outcome is a parameter
(`none` = network exception), `parse` is the `json.loads` oracle, and `wall`
is the measured wall-clock duration `end_time - start_time` in seconds. -/
def run_benchmark (parse : String → Option Json) (post : Option HttpResponse)
    (wall : ℚ) : RunResult :=
  match post with
  | none => absentTriple
  | some response =>
    if response.status_code ≠ 200 then absentTriple
    else
      match parse (lastLine response.text) with
      | none => absentTriple
      | some response_data =>
        match extractContent response_data, extractStats response_data with
        | some message_content, some raw =>
          ⟨some message_content, some wall, statsDict raw⟩
        | _, _ => absentTriple

/-- Decimal digit character for `n < 10`. -/
def digitChar (n : ℕ) : Char := Char.ofNat (48 + n)

/-- Two-digit zero-padded rendering of `n < 100`. -/
def pad2 (n : ℕ) : String := String.mk [digitChar (n / 10), digitChar (n % 10)]

/-- Number of hundredths in `q`, rounded to nearest (half away from zero for
the nonnegative values that occur here): `⌊q * 100 + 1/2⌋` computed on the
reduced numerator and denominator. -/
def hundredths (q : ℚ) : ℤ := Int.fdiv (q.num * 200 + q.den) (2 * q.den)

/-- Python's `f"{x:.2f}"`: the value rounded to two decimal places, always
printing exactly two digits after the decimal point.  The float rounding of
CPython is modelled by exact rational rounding to the nearest hundredth. -/
def fmt2 (q : ℚ) : String :=
  (if hundredths q < 0 then "-" else "") ++
    toString ((hundredths q).natAbs / 100) ++ "." ++
    pad2 ((hundredths q).natAbs % 100)

/-- Python's `str()` on a number cell written to the CSV: integers render
without a decimal part; the exact rendering of non-integer floats is
abstracted. -/
def renderNum (q : ℚ) : String :=
  if q.den = 1 then toString q.num else toString q

/-- `format_duration` (lines 97-107): render a nanosecond count as a
human-readable string.  The nanosecond argument is the nonnegative integer
count; `/` in the source is Python float division, modelled exactly over ℚ. -/
def format_duration (nanoseconds : ℕ) : String :=
  if nanoseconds < 1000000 then toString nanoseconds ++ " ns"
  else if nanoseconds < 1000000000 then
    fmt2 ((nanoseconds : ℚ) / 1000000) ++ " ms"
  else if nanoseconds < 60000000000 then
    fmt2 ((nanoseconds : ℚ) / 1000000000) ++ " s"
  else
    fmt2 ((nanoseconds : ℚ) / 60000000000) ++ " min"

/-- The CSV header written by `save_result` (lines 204-210): the DictWriter
fieldnames, one per column. -/
def fieldnames : List String :=
  ["model", "category", "prompt", "response", "duration",
   "total_duration", "load_duration", "prompt_eval_count",
   "prompt_eval_duration", "prompt_eval_rate", "eval_count",
   "eval_duration", "eval_rate", "timestamp",
   "os", "os_version", "python_version", "cpu", "ram_total", "gpu"]

/-- The host snapshot from `get_system_info`, threaded unchanged into every
row of a run.  Modelled as the fully populated dict (the `{}` fallback of a
probe failure is covered by `save_result`'s `.get` defaults, which this total
structure renders moot). -/
structure SystemInfo where
  os : String
  os_version : String
  python_version : String
  cpu : String
  ram_total : ℚ
  gpu : String

/-- The `result` dict built by `main` (lines 295-302) and consumed by
`save_result`: request identifiers, response text, wall duration in seconds,
and the stats dict returned by `run_benchmark`. -/
structure ResultRec where
  model : String
  category : String
  prompt : String
  response : String
  duration : ℚ
  usage : List (String × ℚ)

/-- `usage.get(k, 0)` (lines 225-247). -/
def usageGet (usage : List (String × ℚ)) (k : String) : ℚ :=
  (usage.lookup k).getD 0

/-- The row dict built by `save_result` (lines 234-255), flattened in
fieldname order.  Durations are converted from nanoseconds to seconds and
formatted to two decimals; the prompt and response cells hold the literal
placeholder strings. -/
def mkRow (result : ResultRec) (system_info : SystemInfo) (timestamp : String) :
    List String :=
  [result.model,
   result.category,
   "prompt-placeholder",
   "result-placeholder",
   fmt2 result.duration,
   fmt2 (usageGet result.usage "total_duration" / 1000000000),
   fmt2 (usageGet result.usage "load_duration" / 1000000000),
   renderNum (usageGet result.usage "prompt_eval_count"),
   fmt2 (usageGet result.usage "prompt_eval_duration" / 1000000000),
   fmt2 (usageGet result.usage "prompt_eval_rate"),
   renderNum (usageGet result.usage "eval_count"),
   fmt2 (usageGet result.usage "eval_duration" / 1000000000),
   fmt2 (usageGet result.usage "eval_rate"),
   timestamp,
   system_info.os,
   system_info.os_version,
   system_info.python_version,
   system_info.cpu,
   renderNum system_info.ram_total,
   system_info.gpu]

/-- `save_result` (lines 195-257) acting on the ledger file, modelled as
`none` (file absent) or `some rows` (the file's lines).  The header is
written only when the file did not exist; then exactly one data row is
appended.  The returned list is the file's lines after the call. -/
def save_result (file : Option (List (List String))) (result : ResultRec)
    (system_info : SystemInfo) (timestamp : String) : List (List String) :=
  match file with
  | none => [fieldnames, mkRow result system_info timestamp]
  | some rows => rows ++ [mkRow result system_info timestamp]

/-- Python truthiness of the `response` variable in `main` line 294:
`None` and the empty string are falsy. -/
def pyTruthyStr : Option String → Bool
  | none => false
  | some s => s != ""

/-- Python truthiness of the `duration` variable in `main` line 294:
`None` and `0.0` are falsy. -/
def pyTruthyQ : Option ℚ → Bool
  | none => false
  | some q => q != 0

/-- The orchestrator's recording guard `if response and duration:`
(`main` line 294). -/
def shouldRecord (res : RunResult) : Bool :=
  pyTruthyStr res.message_content && pyTruthyQ res.duration

/-- One iteration of the orchestrator loop after `run_benchmark` returns
(`main` lines 292-304): build the result dict and save it when the guard
holds, otherwise leave the ledger untouched.  The `.getD` defaults are never
exercised when the guard holds. -/
def recordStep (file : Option (List (List String)))
    (model category prompt : String) (system_info : SystemInfo)
    (timestamp : String) (res : RunResult) : Option (List (List String)) :=
  if shouldRecord res then
    some (save_result file
      ⟨model, category, prompt, res.message_content.getD "",
        res.duration.getD 0, res.stats⟩
      system_info timestamp)
  else file

/-- Sample final JSON record with all four rate inputs positive. -/
def jEx : Json :=
  Json.obj
    [("message", Json.obj [("content", Json.str "hi")]),
     ("prompt_eval_count", Json.num 50),
     ("prompt_eval_duration", Json.num 2000000000),
     ("eval_count", Json.num 10),
     ("eval_duration", Json.num 1000000000)]

/-- Sample raw statistics carried by `jEx` (missing fields default to 0). -/
def rawEx : RawStats := ⟨0, 0, 50, 2000000000, 10, 1000000000⟩

/-- Parse oracle that always yields `jEx`. -/
def parseEx : String → Option Json := fun _ => some jEx

/-- Sample final JSON record whose prompt count and eval duration are zero. -/
def jZero : Json :=
  Json.obj
    [("prompt_eval_count", Json.num 0),
     ("prompt_eval_duration", Json.num 5),
     ("eval_count", Json.num 3),
     ("eval_duration", Json.num 0)]

/-- Raw statistics carried by `jZero`. -/
def rawZero : RawStats := ⟨0, 0, 0, 5, 3, 0⟩

/-- Parse oracle that always yields `jZero`. -/
def parseZero : String → Option Json := fun _ => some jZero

/-- Parse oracle that echoes the parsed line back as the message content. -/
def parseEcho : String → Option Json :=
  fun s => some (Json.obj [("message", Json.obj [("content", Json.str s)])])

/-- Sample 200 response. -/
def respEx : HttpResponse := ⟨200, "x"⟩

/-- Sample host snapshot. -/
def siEx : SystemInfo := ⟨"Linux", "6.1.0", "3.12.0", "x86_64", 32, "N/A"⟩

/-- Sample result record with integer-valued cells. -/
def rEx : ResultRec :=
  ⟨"gemma3:4b", "coding", "write a loop", "done", 2,
   [("total_duration", 3000000000), ("load_duration", 1000000000),
    ("prompt_eval_count", 50), ("prompt_eval_duration", 2000000000),
    ("eval_count", 10), ("eval_duration", 1000000000),
    ("prompt_eval_rate", 25), ("eval_rate", 10)]⟩

/-- Reduction of `run_benchmark` on the success path: a 200 status, a parsed
last line, and successful content and stats extraction yield the content, the
wall duration, and the stats dict. -/
theorem run_benchmark_success (parse : String → Option Json)
    (resp : HttpResponse) (wall : ℚ) (j : Json) (c : String) (r : RawStats)
    (hstatus : resp.status_code = 200)
    (hparse : parse (lastLine resp.text) = some j)
    (hc : extractContent j = some c) (hr : extractStats j = some r) :
    run_benchmark parse (some resp) wall = ⟨some c, some wall, statsDict r⟩ := by
  simp [run_benchmark, hstatus, hparse, hc, hr]

/-- The two-decimal formatter always produces a string whose final component
after a decimal point has exactly two characters. -/
theorem fmt2_shape (q : ℚ) :
    ∃ s t : String, fmt2 q = s ++ "." ++ t ∧ t.length = 2 := by
  refine ⟨(if hundredths q < 0 then "-" else "") ++
    toString ((hundredths q).natAbs / 100),
    pad2 ((hundredths q).natAbs % 100), rfl, rfl⟩

/-- C1: for every successful benchmark response whose prompt_eval_count and
prompt_eval_duration are both positive (and likewise eval_count and
eval_duration), `run_benchmark` sets `prompt_eval_rate` to
`prompt_eval_count / (prompt_eval_duration / 1e9)` and `eval_rate` to
`eval_count / (eval_duration / 1e9)`; instantiating the counts at 50 and
2e9 ns yields exactly 25 tokens per second (see the witness). -/
theorem run_benchmark_rates (parse : String → Option Json)
    (resp : HttpResponse) (wall : ℚ) (j : Json) (c : String) (r : RawStats)
    (hstatus : resp.status_code = 200)
    (hparse : parse (lastLine resp.text) = some j)
    (hc : extractContent j = some c) (hr : extractStats j = some r)
    (hpc : 0 < r.prompt_eval_count) (hpd : 0 < r.prompt_eval_duration)
    (hec : 0 < r.eval_count) (hed : 0 < r.eval_duration) :
    (run_benchmark parse (some resp) wall).stats.lookup "prompt_eval_rate"
        = some (r.prompt_eval_count / (r.prompt_eval_duration / 1000000000))
    ∧ (run_benchmark parse (some resp) wall).stats.lookup "eval_rate"
        = some (r.eval_count / (r.eval_duration / 1000000000)) := by
  rw [run_benchmark_success parse resp wall j c r hstatus hparse hc hr]
  have hp : (statsDict r).lookup "prompt_eval_rate"
      = some (if 0 < r.prompt_eval_count ∧ 0 < r.prompt_eval_duration then
          r.prompt_eval_count / (r.prompt_eval_duration / 1000000000)
        else 0) := rfl
  have he : (statsDict r).lookup "eval_rate"
      = some (if 0 < r.eval_count ∧ 0 < r.eval_duration then
          r.eval_count / (r.eval_duration / 1000000000)
        else 0) := rfl
  constructor
  · rw [hp, if_pos ⟨hpc, hpd⟩]
  · rw [he, if_pos ⟨hec, hed⟩]

/-- C1 witness: a concrete successful run with prompt_eval_count = 50 and
prompt_eval_duration = 2e9 ns derives exactly 25 tokens per second, and with
eval_count = 10 over 1e9 ns exactly 10 tokens per second. -/
theorem run_benchmark_rates_witness :
    (run_benchmark parseEx (some respEx) 1).stats.lookup "prompt_eval_rate"
        = some 25
    ∧ (run_benchmark parseEx (some respEx) 1).stats.lookup "eval_rate"
        = some 10 := by
  have h := run_benchmark_rates parseEx respEx 1 jEx "hi" rawEx
    rfl rfl rfl rfl (by norm_num [rawEx]) (by norm_num [rawEx])
    (by norm_num [rawEx]) (by norm_num [rawEx])
  constructor
  · rw [h.1, Option.some_inj]
    norm_num [rawEx]
  · rw [h.2, Option.some_inj]
    norm_num [rawEx]

/-- C2: on a successful response, whenever a count or its duration is zero
(more generally whenever the pair is not both strictly positive) the derived
rate is 0: the division expression is only evaluated under the positivity
guard, so no division by zero occurs. -/
theorem run_benchmark_rate_guard (parse : String → Option Json)
    (resp : HttpResponse) (wall : ℚ) (j : Json) (c : String) (r : RawStats)
    (hstatus : resp.status_code = 200)
    (hparse : parse (lastLine resp.text) = some j)
    (hc : extractContent j = some c) (hr : extractStats j = some r) :
    (r.prompt_eval_count = 0 ∨ r.prompt_eval_duration = 0 →
      (run_benchmark parse (some resp) wall).stats.lookup "prompt_eval_rate"
        = some 0)
    ∧ (¬(0 < r.prompt_eval_count ∧ 0 < r.prompt_eval_duration) →
      (run_benchmark parse (some resp) wall).stats.lookup "prompt_eval_rate"
        = some 0)
    ∧ (r.eval_count = 0 ∨ r.eval_duration = 0 →
      (run_benchmark parse (some resp) wall).stats.lookup "eval_rate"
        = some 0)
    ∧ (¬(0 < r.eval_count ∧ 0 < r.eval_duration) →
      (run_benchmark parse (some resp) wall).stats.lookup "eval_rate"
        = some 0) := by
  rw [run_benchmark_success parse resp wall j c r hstatus hparse hc hr]
  have hp : (statsDict r).lookup "prompt_eval_rate"
      = some (if 0 < r.prompt_eval_count ∧ 0 < r.prompt_eval_duration then
          r.prompt_eval_count / (r.prompt_eval_duration / 1000000000)
        else 0) := rfl
  have he : (statsDict r).lookup "eval_rate"
      = some (if 0 < r.eval_count ∧ 0 < r.eval_duration then
          r.eval_count / (r.eval_duration / 1000000000)
        else 0) := rfl
  refine ⟨fun h => ?_, fun h => ?_, fun h => ?_, fun h => ?_⟩
  · rw [hp, if_neg]
    rintro ⟨h1, h2⟩
    rcases h with h | h
    · rw [h] at h1
      exact lt_irrefl 0 h1
    · rw [h] at h2
      exact lt_irrefl 0 h2
  · rw [hp, if_neg h]
  · rw [he, if_neg]
    rintro ⟨h1, h2⟩
    rcases h with h | h
    · rw [h] at h1
      exact lt_irrefl 0 h1
    · rw [h] at h2
      exact lt_irrefl 0 h2
  · rw [he, if_neg h]

/-- C2 witness: a concrete successful run whose prompt_eval_count is 0 and
whose eval_duration is 0 derives both rates as 0. -/
theorem run_benchmark_rate_guard_witness :
    (run_benchmark parseZero (some respEx) 1).stats.lookup "prompt_eval_rate"
        = some 0
    ∧ (run_benchmark parseZero (some respEx) 1).stats.lookup "eval_rate"
        = some 0 := by
  have h := run_benchmark_rate_guard parseZero respEx 1 jZero "" rawZero
    rfl rfl rfl rfl
  exact ⟨h.1 (Or.inl rfl), h.2.2.1 (Or.inr rfl)⟩

/-- C4: a non-200 HTTP status makes `run_benchmark` return the absent triple
(no content, no duration, empty stats), and the orchestrator's recording step
leaves the ledger unchanged for that iteration. -/
theorem run_benchmark_non200 (parse : String → Option Json)
    (resp : HttpResponse) (wall : ℚ) (file : Option (List (List String)))
    (model category prompt : String) (si : SystemInfo) (ts : String)
    (h : resp.status_code ≠ 200) :
    run_benchmark parse (some resp) wall = absentTriple
    ∧ recordStep file model category prompt si ts
        (run_benchmark parse (some resp) wall) = file := by
  have h1 : run_benchmark parse (some resp) wall = absentTriple := by
    simp [run_benchmark, if_pos h]
  exact ⟨h1, by rw [h1]; rfl⟩

/-- C4 witness: a concrete 500 response yields the absent triple and no
ledger row. -/
theorem run_benchmark_non200_witness :
    run_benchmark parseEx (some ⟨500, "x"⟩) 1 = absentTriple
    ∧ recordStep none "gemma3:4b" "coding" "p" siEx "t"
        (run_benchmark parseEx (some ⟨500, "x"⟩) 1) = none :=
  run_benchmark_non200 parseEx ⟨500, "x"⟩ 1 none "gemma3:4b" "coding" "p"
    siEx "t" (by decide)

/-- C5: when the last newline-delimited line of the response body fails to
parse as JSON, `run_benchmark` returns the absent triple. -/
theorem run_benchmark_badjson (parse : String → Option Json)
    (resp : HttpResponse) (wall : ℚ)
    (hstatus : resp.status_code = 200)
    (hparse : parse (lastLine resp.text) = none) :
    run_benchmark parse (some resp) wall = absentTriple := by
  simp [run_benchmark, hstatus, hparse]

/-- C5 witness: a concrete 200 response whose body does not parse yields the
absent triple. -/
theorem run_benchmark_badjson_witness :
    run_benchmark (fun _ => none) (some ⟨200, "not json"⟩) 1 = absentTriple :=
  run_benchmark_badjson (fun _ => none) ⟨200, "not json"⟩ 1 rfl rfl

/-- C6: `run_benchmark` reads the response body only through its stripped
last newline-delimited line: two 200 responses with the same last line
produce identical results, whatever the earlier lines contain, so the
message content and all raw stats come from the last line alone. -/
theorem run_benchmark_lastline (parse : String → Option Json) (wall : ℚ)
    (r1 r2 : HttpResponse)
    (h1 : r1.status_code = 200) (h2 : r2.status_code = 200)
    (hl : lastLine r1.text = lastLine r2.text) :
    run_benchmark parse (some r1) wall = run_benchmark parse (some r2) wall := by
  simp [run_benchmark, h1, h2, hl]

/-- C6 witness: with a parse oracle that echoes the parsed line into the
message content, a two-line body behaves exactly as the body holding only its
final line. -/
theorem run_benchmark_lastline_witness :
    run_benchmark parseEcho (some ⟨200, "early record\nfinal record"⟩) 1
      = run_benchmark parseEcho (some ⟨200, "final record"⟩) 1 :=
  run_benchmark_lastline parseEcho 1 ⟨200, "early record\nfinal record"⟩
    ⟨200, "final record"⟩ rfl rfl (by decide)

/-- C3 counterexample: the DictWriter header does not have 19 columns. -/
theorem fieldnames_not_nineteen : ¬ (fieldnames.length = 19) := by decide

/-- C3 amended: the ledger schema is the 20-column ResultRow; every row
written by `save_result`, including the header written on first creation,
has exactly 20 columns. -/
theorem ledger_schema_twenty (r : ResultRec) (si : SystemInfo) (ts : String) :
    fieldnames.length = 20
    ∧ (mkRow r si ts).length = 20
    ∧ ∀ row ∈ save_result none r si ts, row.length = 20 := by
  refine ⟨rfl, rfl, fun row hrow => ?_⟩
  simp only [save_result, List.mem_cons, List.not_mem_nil, or_false] at hrow
  rcases hrow with h | h
  · rw [h]
    rfl
  · rw [h]
    rfl

/-- C3 amended witness: the first data row written into a fresh ledger has
20 columns. -/
theorem ledger_schema_twenty_witness :
    (mkRow rEx siEx "2025-01-01 00:00:00").length = 20 :=
  (ledger_schema_twenty rEx siEx "2025-01-01 00:00:00").2.2
    (mkRow rEx siEx "2025-01-01 00:00:00")
    (List.mem_cons_of_mem fieldnames (List.mem_cons_self _ _))

/-- C7: whatever prompt and response text the result carries, the data row
`save_result` appends holds the literal placeholder strings in its prompt
and response columns. -/
theorem save_result_placeholders (file : Option (List (List String)))
    (r : ResultRec) (si : SystemInfo) (ts : String) :
    (save_result file r si ts).getLast? = some (mkRow r si ts)
    ∧ (mkRow r si ts)[2]? = some "prompt-placeholder"
    ∧ (mkRow r si ts)[3]? = some "result-placeholder" := by
  refine ⟨?_, rfl, rfl⟩
  cases file with
  | none => rfl
  | some rows => simp [save_result]

/-- C9: each `save_result` call appends exactly one data row (the line count
grows by one, counting the header created on a fresh file), the header is
written iff the file did not exist, and two sequential calls produce two
independent rows each carrying its own timestamp in the timestamp column. -/
theorem save_result_appends (file : Option (List (List String)))
    (r : ResultRec) (si : SystemInfo) (ts : String)
    (r2 : ResultRec) (ts2 : String) :
    (save_result file r si ts).length = (file.getD [fieldnames]).length + 1
    ∧ (file = none → save_result file r si ts = [fieldnames, mkRow r si ts])
    ∧ (∀ rows, file = some rows →
        save_result file r si ts = rows ++ [mkRow r si ts])
    ∧ save_result (some (save_result file r si ts)) r2 si ts2
        = save_result file r si ts ++ [mkRow r2 si ts2]
    ∧ (mkRow r si ts)[13]? = some ts
    ∧ (mkRow r2 si ts2)[13]? = some ts2 := by
  refine ⟨?_, fun h => ?_, fun rows h => ?_, ?_, rfl, rfl⟩
  · cases file with
    | none => rfl
    | some rows => simp [save_result]
  · rw [h]
    rfl
  · rw [h]
    rfl
  · rfl

/-- C9 witness: a call on a fresh ledger writes the header and one row; a
call on an existing ledger appends exactly the one new row. -/
theorem save_result_appends_witness :
    save_result none rEx siEx "2025-01-01 00:00:00"
      = [fieldnames, mkRow rEx siEx "2025-01-01 00:00:00"]
    ∧ save_result (some [fieldnames]) rEx siEx "2025-01-01 00:00:01"
      = [fieldnames] ++ [mkRow rEx siEx "2025-01-01 00:00:01"] :=
  ⟨(save_result_appends none rEx siEx "2025-01-01 00:00:00" rEx "t").2.1 rfl,
   (save_result_appends (some [fieldnames]) rEx siEx "2025-01-01 00:00:01"
     rEx "t").2.2.1 [fieldnames] rfl⟩

/-- C8: `format_duration` renders the raw count with unit ns below 1e6 ns,
milliseconds to two decimal places from 1e6 up to 1e9 ns, seconds to two
decimal places from 1e9 up to 6e10 ns, and minutes to two decimal places
from 6e10 ns on; each fractional rendering carries exactly two digits after
the decimal point. -/
theorem format_duration_spec (n : ℕ) :
    (n < 1000000 → format_duration n = toString n ++ " ns")
    ∧ (1000000 ≤ n → n < 1000000000 →
        format_duration n = fmt2 ((n : ℚ) / 1000000) ++ " ms"
        ∧ ∃ s t : String,
            fmt2 ((n : ℚ) / 1000000) = s ++ "." ++ t ∧ t.length = 2)
    ∧ (1000000000 ≤ n → n < 60000000000 →
        format_duration n = fmt2 ((n : ℚ) / 1000000000) ++ " s"
        ∧ ∃ s t : String,
            fmt2 ((n : ℚ) / 1000000000) = s ++ "." ++ t ∧ t.length = 2)
    ∧ (60000000000 ≤ n →
        format_duration n = fmt2 ((n : ℚ) / 60000000000) ++ " min"
        ∧ ∃ s t : String,
            fmt2 ((n : ℚ) / 60000000000) = s ++ "." ++ t ∧ t.length = 2) := by
  refine ⟨fun h => ?_, fun h1 h2 => ⟨?_, fmt2_shape _⟩,
    fun h1 h2 => ⟨?_, fmt2_shape _⟩, fun h1 => ⟨?_, fmt2_shape _⟩⟩
  · rw [format_duration, if_pos h]
  · rw [format_duration, if_neg (by omega), if_pos h2]
  · rw [format_duration, if_neg (by omega), if_neg (by omega), if_pos h2]
  · rw [format_duration, if_neg (by omega), if_neg (by omega),
      if_neg (by omega)]

/-- C8 witness: one concrete rendering in each of the four bands. -/
theorem format_duration_spec_witness :
    format_duration 999999 = "999999 ns"
    ∧ format_duration 500000000 = "500.00 ms"
    ∧ format_duration 2000000000 = "2.00 s"
    ∧ format_duration 120000000000 = "2.00 min" := by
  refine ⟨?_, ?_, ?_, ?_⟩
  · rw [(format_duration_spec 999999).1 (by norm_num)]
    decide
  · rw [((format_duration_spec 500000000).2.1 (by norm_num) (by norm_num)).1,
      show ((500000000 : ℕ) : ℚ) / 1000000 = 500 from by norm_num]
    decide
  · rw [((format_duration_spec 2000000000).2.2.1 (by norm_num)
        (by norm_num)).1,
      show ((2000000000 : ℕ) : ℚ) / 1000000000 = 2 from by norm_num]
    decide
  · rw [((format_duration_spec 120000000000).2.2.2 (by norm_num)).1,
      show ((120000000000 : ℕ) : ℚ) / 60000000000 = 2 from by norm_num]
    decide

/-- C10: the orchestrator records a row iff the returned message content is a
non-empty string and the wall duration is nonzero; a parsed final record
without a message field yields the empty string (not an absent value) and no
row, and a zero wall duration yields no row. -/
theorem orchestrator_record_iff (res : RunResult)
    (file : Option (List (List String))) (model category prompt : String)
    (si : SystemInfo) (ts : String) :
    (shouldRecord res = true ↔
      (∃ s, res.message_content = some s ∧ s ≠ "")
      ∧ (∃ d, res.duration = some d ∧ d ≠ 0))
    ∧ (shouldRecord res = false →
        recordStep file model category prompt si ts res = file)
    ∧ (res.duration = some 0 →
        recordStep file model category prompt si ts res = file)
    ∧ (∀ parse : String → Option Json, ∀ resp : HttpResponse, ∀ wall : ℚ,
        ∀ j : Json, ∀ r : RawStats,
        resp.status_code = 200 → parse (lastLine resp.text) = some j →
        Json.lookup j "message" = none → extractStats j = some r →
        (run_benchmark parse (some resp) wall).message_content = some ""
        ∧ recordStep file model category prompt si ts
            (run_benchmark parse (some resp) wall) = file) := by
  obtain ⟨mc, d, st⟩ := res
  refine ⟨?_, fun h => ?_, fun h => ?_,
    fun parse resp wall j r hstatus hparse hmsg hr => ?_⟩
  · cases mc with
    | none => simp [shouldRecord, pyTruthyStr]
    | some s =>
      cases d with
      | none => simp [shouldRecord, pyTruthyStr, pyTruthyQ]
      | some q =>
        simp [shouldRecord, pyTruthyStr, pyTruthyQ, bne_iff_ne]
  · simp only [recordStep, h, Bool.false_eq_true, if_false]
  · subst h
    simp [recordStep, shouldRecord, pyTruthyQ]
  · have hobj : ∃ kvs, j = Json.obj kvs := by
      cases j with
      | obj kvs => exact ⟨kvs, rfl⟩
      | null => exact absurd hr (by simp [extractStats])
      | bool b => exact absurd hr (by simp [extractStats])
      | num q => exact absurd hr (by simp [extractStats])
      | str s => exact absurd hr (by simp [extractStats])
      | arr xs => exact absurd hr (by simp [extractStats])
    obtain ⟨kvs, rfl⟩ := hobj
    have hc : extractContent (Json.obj kvs) = some "" := by
      simp only [Json.lookup] at hmsg
      simp [extractContent, hmsg]
    have hres := run_benchmark_success parse resp wall (Json.obj kvs) "" r
      hstatus hparse hc hr
    rw [hres]
    exact ⟨rfl, by simp [recordStep, shouldRecord, pyTruthyStr]⟩

/-- C10 witness: a run whose final record has no message field produces the
empty-string content and no ledger row, and a result with nonempty content
but zero wall duration also produces no row. -/
theorem orchestrator_record_iff_witness :
    (run_benchmark parseZero (some respEx) 1).message_content = some ""
    ∧ recordStep none "m" "c" "p" siEx "t"
        (run_benchmark parseZero (some respEx) 1) = none
    ∧ recordStep none "m" "c" "p" siEx "t" ⟨some "hi", some 0, []⟩ = none := by
  have h := (orchestrator_record_iff (run_benchmark parseZero (some respEx) 1)
    none "m" "c" "p" siEx "t").2.2.2 parseZero respEx 1 jZero rawZero
    rfl rfl rfl rfl
  have h0 := (orchestrator_record_iff ⟨some "hi", some 0, []⟩
    none "m" "c" "p" siEx "t").2.2.1 rfl
  exact ⟨h.1, h.2, h0⟩
